import Mathlib

/-!
Shallow embedding of the Knight Engine 2D core (C/SDL2) for specification
checking.  Floating-point values of the C source (`float` / `double`) are
modelled as exact rationals; machine pointers (SDL_Texture*) are modelled as
abstract natural-number handles, with NULL rendered as `Option.none`; C strings
are modelled as lists of characters.  External collaborators (the SDL image
decoder, rand(), texture creation) are passed in as explicit oracles.
-/

/-! ### Configuration constants (src/core/config.h) -/

def WINDOW_WIDTH : ℕ := 800
def WINDOW_HEIGHT : ℕ := 600
def SPRITE_WIDTH : ℕ := 64
def SPRITE_HEIGHT : ℕ := 64
def SPRITE_SPEED : ℚ := 300
def SPRITE_MAX_COUNT : ℕ := 256
def TARGET_FPS : ℕ := 60
def FIXED_TIMESTEP : ℚ := 1 / (TARGET_FPS : ℚ)
def MAX_DELTA_TIME : ℚ := 1 / 10
def MAX_ACCUMULATOR : ℚ := 1 / 4
def CAMERA_SPEED : ℚ := 200
def TEXTURE_MAX_ENTRIES : ℕ := 32
def TEXTURE_PATH_MAX_LEN : ℕ := 128
def INPUT_MAX_KEYS : ℕ := 512
def STRESS_TEST_SPRITE_COUNT : ℕ := 150

/-! ### Camera (src/graphics/camera.c) -/

/-- Camera state: world-space offset of the viewport's top-left corner. -/
structure camera_t where
  x : ℚ
  y : ℚ
deriving DecidableEq

/-- The C `(int)` cast applied to a real value: truncation toward zero
(floor for nonnegative values, ceiling for negative ones). -/
def cIntCast (q : ℚ) : ℤ := if q < 0 then ⌈q⌉ else ⌊q⌋

/-- world_to_screen from src/graphics/camera.c: `*screen_x = (int)(world_x - camera->x)`
and likewise for y.  A total pure function. -/
def world_to_screen (camera : camera_t) (world_x world_y : ℚ) : ℤ × ℤ :=
  (cIntCast (world_x - camera.x), cIntCast (world_y - camera.y))

/-! ### Input tracker (src/input/input.c) -/

/-- Input state: `current` is SDL's live keyboard array (the stored pointer;
SDL rewrites it during event pumping), `previous` is the per-frame snapshot,
`num_keys` the length SDL reports for the live array. -/
structure input_state_t where
  num_keys : ℕ
  current : ℕ → Bool
  previous : ℕ → Bool

/-- input_update: copy `current[i]` into `previous[i]` for every
`i < num_keys && i < INPUT_MAX_KEYS`; other slots keep their old value. -/
def input_update (input : input_state_t) : input_state_t :=
  { input with
    previous := fun i =>
      if i < input.num_keys ∧ i < INPUT_MAX_KEYS then input.current i
      else input.previous i }

/-- input_key_down: live state of the key. -/
def input_key_down (input : input_state_t) (key : ℕ) : Bool :=
  input.current key

/-- input_key_pressed: `current[key] && !previous[key]` (rising edge). -/
def input_key_pressed (input : input_state_t) (key : ℕ) : Bool :=
  input.current key && !(input.previous key)

/-- input_key_released: `!current[key] && previous[key]` (falling edge). -/
def input_key_released (input : input_state_t) (key : ℕ) : Bool :=
  !(input.current key) && input.previous key

/-- SDL rewriting the live keyboard array to a new snapshot (happens inside
event pumping, after input_update in the frame sequence of engine_run). -/
def advanceLive (input : input_state_t) (live : ℕ → Bool) : input_state_t :=
  { input with current := live }

/-- One frame boundary as sequenced in engine_run: first `input_update`
snapshots the live array into `previous`, then SDL's event pump advances the
live array to this frame's state. -/
def frameStep (input : input_state_t) (live : ℕ → Bool) : input_state_t :=
  advanceLive (input_update input) live

/-! ### Texture cache (src/graphics/texture.c) -/

/-- A C string (char array); the cache key field `path` is one of these. -/
abbrev path_t := List Char

/-- One cache slot: {path key, texture handle, width, height}. -/
structure texture_entry_t where
  path : path_t
  texture : ℕ
  width : ℤ
  height : ℤ
deriving DecidableEq

/-- Texture manager: the used slots `entries[0..count)`, in order.  The unused
tail of the fixed C array is not observable and is not modelled; `count` is
`entries.length`. -/
structure texture_manager_t where
  entries : List texture_entry_t
deriving DecidableEq

/-- Observable outcome of one texture_load call: the returned handle (NULL as
`none`), the cache state afterwards, and whether IMG_LoadTexture was invoked. -/
structure load_result_t where
  handle : Option ℕ
  state : texture_manager_t
  decoder_invoked : Bool
deriving DecidableEq

/-- texture_load from src/graphics/texture.c.  `decode` is the external
IMG_LoadTexture collaborator (path ↦ handle with queried width/height, or NULL).
The linear scan with strcmp is `find?` over the entries in index order; on a
miss with spare capacity the decoded texture is stored at `entries[count]`,
its path key written by `strncpy(entry->path, path, TEXTURE_PATH_MAX_LEN - 1)`
followed by a forced NUL, i.e. the key is `path.take (TEXTURE_PATH_MAX_LEN - 1)`. -/
def texture_load (decode : path_t → Option (ℕ × ℤ × ℤ))
    (tm : texture_manager_t) (path : path_t) : load_result_t :=
  match tm.entries.find? (fun e => e.path == path) with
  | some e => ⟨some e.texture, tm, false⟩
  | none =>
    if TEXTURE_MAX_ENTRIES ≤ tm.entries.length then ⟨none, tm, false⟩
    else
      match decode path with
      | none => ⟨none, tm, true⟩
      | some (h, w, ht) =>
        ⟨some h,
         ⟨tm.entries ++ [⟨path.take (TEXTURE_PATH_MAX_LEN - 1), h, w, ht⟩]⟩,
         true⟩

/-- texture_get: lookup only, never loads. -/
def texture_get (tm : texture_manager_t) (path : path_t) : Option ℕ :=
  (tm.entries.find? (fun e => e.path == path)).map (fun e => e.texture)

/-! ### Sprites (src/graphics/sprite.h) -/

/-- Sprite record.  `texture` is a non-owning handle (NULL as `none`);
`flip` holds the SDL_RendererFlip bits. -/
structure sprite_t where
  x : ℚ
  y : ℚ
  vel_x : ℚ
  vel_y : ℚ
  width : ℤ
  height : ℤ
  z_index : ℤ
  angle : ℚ
  flip : ℕ
  texture : Option ℕ
  show_debug_bounds : Bool
deriving DecidableEq

/-! ### Render pass draw order (engine_render, src/core/engine.c lines 54-74)

Only the order in which sprite slots are visited is modelled; `zs` lists the
`z_index` field of `sprites[0..sprite_count)`. -/

/-- Draw order of the bucketed render pass: for each z from 0 to 100, scan the
sprite array in index order and draw every sprite whose z_index equals z. -/
def renderDrawOrder (zs : List ℤ) : List ℕ :=
  (List.range 101).flatMap
    (fun z => (List.range zs.length).filter (fun i => zs.getD i 0 == (z : ℤ)))

/-- Modelled from the spec: the comparison "sort sprite indices by the pair
(z_index, original_index)" — index order on equal z, z order otherwise. -/
def spriteKeyLe (zs : List ℤ) (i j : ℕ) : Prop :=
  zs.getD i 0 < zs.getD j 0 ∨ (zs.getD i 0 = zs.getD j 0 ∧ i ≤ j)

instance (zs : List ℤ) : DecidableRel (spriteKeyLe zs) := fun i j => by
  unfold spriteKeyLe
  infer_instance

/-- Modelled from the spec: the alternative implementation that sorts the
sprite indices by `(z_index, original_index)` and draws in that order. -/
def sortedDrawOrder (zs : List ℤ) : List ℕ :=
  List.insertionSort (spriteKeyLe zs) (List.range zs.length)

/-! ### Game state (src/core/game_state.h, the fields game logic touches) -/

/-- Game-logic view of game_state_t: the camera, the sprite array
(`sprite_count` is `sprites.length`), the player slot index, and the
debug/stress-test flags.  Rendering resources are held by the oracles. -/
structure game_state_t where
  input : input_state_t
  camera : camera_t
  sprites : List sprite_t
  player_index : ℕ
  running : Bool
  debug_enabled : Bool
  stress_test_active : Bool
  stress_test_base_index : ℕ

/-! ### Game update (src/core/game_logic.c game_update) -/

/-- Key bindings used by game_update (SDL scancodes, src/input/input_config.h). -/
def KEY_CAM_UP : ℕ := 12
def KEY_CAM_DOWN : ℕ := 14
def KEY_CAM_LEFT : ℕ := 13
def KEY_CAM_RIGHT : ℕ := 15

/-- Camera pan step of game_update: each held pan key moves the camera by
`CAMERA_SPEED * delta_time` along its axis. -/
def cameraPan (input : input_state_t) (delta_time : ℚ) (c0 : camera_t) : camera_t :=
  let c1 := if input_key_down input KEY_CAM_UP then { c0 with y := c0.y - CAMERA_SPEED * delta_time } else c0
  let c2 := if input_key_down input KEY_CAM_DOWN then { c1 with y := c1.y + CAMERA_SPEED * delta_time } else c1
  let c3 := if input_key_down input KEY_CAM_LEFT then { c2 with x := c2.x - CAMERA_SPEED * delta_time } else c2
  if input_key_down input KEY_CAM_RIGHT then { c3 with x := c3.x + CAMERA_SPEED * delta_time } else c3

/-- Position integration of game_update: `x += vel_x * delta_time` and
`y += vel_y * delta_time`. -/
def integrateSprite (delta_time : ℚ) (s : sprite_t) : sprite_t :=
  { s with x := s.x + s.vel_x * delta_time, y := s.y + s.vel_y * delta_time }

/-- Per-axis clamp of game_update: `if (p < lo) p = lo; if (p > hi) p = hi;`
applied in that sequential order. -/
def clampAxis (lo hi p : ℚ) : ℚ :=
  if hi < (if p < lo then lo else p) then hi else (if p < lo then lo else p)

/-- Player clamp of game_update: restrict each axis to
`[camera, camera + viewport_size - sprite_size]` using that tick's camera. -/
def clampPlayerToCamera (camera : camera_t) (p : sprite_t) : sprite_t :=
  { p with
    x := clampAxis camera.x (camera.x + (WINDOW_WIDTH : ℚ) - (p.width : ℚ)) p.x,
    y := clampAxis camera.y (camera.y + (WINDOW_HEIGHT : ℚ) - (p.height : ℚ)) p.y }

/-- Stress-sprite step of game_update: integrate position, advance the angle at
90 degrees per second, and reflect a velocity component when the position has
left the world bound one viewport beyond the visible area. -/
def stressTick (delta_time : ℚ) (s0 : sprite_t) : sprite_t :=
  let s1 := integrateSprite delta_time s0
  let s2 := { s1 with angle := s1.angle + 90 * delta_time }
  let s3 := if s2.x < -(WINDOW_WIDTH : ℚ) ∨ (WINDOW_WIDTH : ℚ) * 2 < s2.x
            then { s2 with vel_x := -s2.vel_x } else s2
  if s3.y < -(WINDOW_HEIGHT : ℚ) ∨ (WINDOW_HEIGHT : ℚ) * 2 < s3.y
  then { s3 with vel_y := -s3.vel_y } else s3

instance : Inhabited sprite_t :=
  ⟨⟨0, 0, 0, 0, 0, 0, 0, 0, 0, none, false⟩⟩

/-- game_update from src/core/game_logic.c: camera pan, player integration,
stress-sprite update for the slots at or above the stress base index, then the
player clamp against the panned camera. -/
def game_update (game : game_state_t) (delta_time : ℚ) : game_state_t :=
  let camera := cameraPan game.input delta_time game.camera
  let sprites1 := game.sprites.set game.player_index
    (integrateSprite delta_time (game.sprites.getD game.player_index default))
  let sprites2 :=
    if game.stress_test_active then
      sprites1.mapIdx (fun i s =>
        if game.stress_test_base_index ≤ i then stressTick delta_time s else s)
    else sprites1
  let sprites3 := sprites2.set game.player_index
    (clampPlayerToCamera camera (sprites2.getD game.player_index default))
  { game with camera := camera, sprites := sprites3 }

/-! ### Stress-test toggle (src/util/debug.c debug_stress_test_toggle) -/

/-- One batch-spawned stress sprite.  `rand` is the C rand() stream (call index
↦ value) and `create` the texture_create_colored collaborator (call index ↦
handle, NULL as `none`); `rc` and `cc` are the indices of the first rand() and
create call this sprite makes.  The three leading rand() calls feed the random
fill color of the synthesized texture and are not stored in the sprite. -/
def stressSprite (rand : ℕ → ℕ) (create : ℕ → Option ℕ) (rc cc : ℕ) : sprite_t :=
  { x := ((rand (rc + 3) % (WINDOW_WIDTH * 2) : ℕ) : ℚ) - ((WINDOW_WIDTH / 2 : ℕ) : ℚ)
    y := ((rand (rc + 4) % (WINDOW_HEIGHT * 2) : ℕ) : ℚ) - ((WINDOW_HEIGHT / 2 : ℕ) : ℚ)
    vel_x := (((rand (rc + 5) % 100 : ℕ) : ℤ) - 50 : ℤ)
    vel_y := (((rand (rc + 6) % 100 : ℕ) : ℤ) - 50 : ℤ)
    width := 32
    height := 32
    z_index := 30 + ((rand (rc + 7) % 20 : ℕ) : ℤ)
    angle := (rand (rc + 8) % 360 : ℕ)
    flip := 0
    texture := create cc
    show_debug_bounds := false }

/-- debug_stress_test_toggle.  When active: destroy the texture of every sprite
at index ≥ base (the second component lists the destroyed handles in order),
truncate `sprite_count` back to base and clear the flag.  When inactive: record
`base_index = sprite_count` and spawn sprites while `i < STRESS_TEST_SPRITE_COUNT`
and `sprite_count < SPRITE_MAX_COUNT`, i.e. exactly
`min STRESS_TEST_SPRITE_COUNT (SPRITE_MAX_COUNT - sprite_count)` of them;
sprite number `i` makes rand() calls `9*i .. 9*i+8` and create call `i`. -/
def debug_stress_test_toggle (rand : ℕ → ℕ) (create : ℕ → Option ℕ)
    (game : game_state_t) : game_state_t × List ℕ :=
  if game.stress_test_active then
    ({ game with
        sprites := game.sprites.take game.stress_test_base_index,
        stress_test_active := false },
     (game.sprites.drop game.stress_test_base_index).filterMap (fun s => s.texture))
  else
    let n := min STRESS_TEST_SPRITE_COUNT (SPRITE_MAX_COUNT - game.sprites.length)
    ({ game with
        sprites := game.sprites ++ (List.range n).map (fun i => stressSprite rand create (9 * i) i),
        stress_test_active := true,
        stress_test_base_index := game.sprites.length },
     [])

/-! ### Engine loop timing (engine_run, src/core/engine.c) -/

/-- Delta clamp of engine_run: `if (delta_time > MAX_DELTA_TIME) delta_time = MAX_DELTA_TIME;`. -/
def clampDelta (delta_time : ℚ) : ℚ :=
  if MAX_DELTA_TIME < delta_time then MAX_DELTA_TIME else delta_time

/-- Accumulator step of engine_run: add the already-clamped delta, then clamp
the accumulator to MAX_ACCUMULATOR before draining. -/
def accumulate (accumulator delta_time : ℚ) : ℚ :=
  let a := accumulator + clampDelta delta_time
  if MAX_ACCUMULATOR < a then MAX_ACCUMULATOR else a

/-- Drain loop of engine_run: `while (accumulator >= FIXED_TIMESTEP)` call
game_update with exactly FIXED_TIMESTEP and subtract it.  The result lists the
delta passed to each game_update call, in order. -/
def drainSteps (accumulator : ℚ) : List ℚ :=
  if h : FIXED_TIMESTEP ≤ accumulator then
    FIXED_TIMESTEP :: drainSteps (accumulator - FIXED_TIMESTEP)
  else []
termination_by (⌊accumulator / FIXED_TIMESTEP⌋).toNat
decreasing_by
  have hft : (0 : ℚ) < FIXED_TIMESTEP := by norm_num [FIXED_TIMESTEP, TARGET_FPS]
  have h1 : (accumulator - FIXED_TIMESTEP) / FIXED_TIMESTEP = accumulator / FIXED_TIMESTEP - 1 := by
    field_simp
  have h2 : (1 : ℚ) ≤ accumulator / FIXED_TIMESTEP := (one_le_div hft).mpr h
  have h3 : (1 : ℤ) ≤ ⌊accumulator / FIXED_TIMESTEP⌋ := Int.le_floor.mpr (by exact_mod_cast h2)
  rw [h1, Int.floor_sub_one]
  omega

/-- Simulated-time contribution of one frame: clamp the measured delta, add it
to the accumulator, clamp the accumulator, drain in fixed steps. -/
def frameUpdateSteps (accumulator delta_time : ℚ) : List ℚ :=
  drainSteps (accumulate accumulator delta_time)

/-! ## Theorems -/

/-- C2: for every tracked key, after the frame boundary (refresh then live
advance) `is_pressed` is exactly `current && !previous` against the previous
frame's snapshot, `is_released` exactly `!current && previous`, and a second
`refresh()` between frames with the live state unchanged leaves `is_pressed`
false rather than true again. -/
theorem input_edge_detection (s : input_state_t) (live : ℕ → Bool) (k : ℕ)
    (hk : k < s.num_keys) (hk2 : k < INPUT_MAX_KEYS) :
    input_key_pressed (frameStep s live) k = (live k && !(s.current k)) ∧
    input_key_released (frameStep s live) k = (!(live k) && s.current k) ∧
    input_key_pressed (input_update (frameStep s live)) k = false := by
  refine ⟨?_, ?_, ?_⟩ <;>
    simp [input_key_pressed, input_key_released, frameStep, advanceLive, input_update, hk, hk2]

/-- Witness for C2 at a concrete state: 512 tracked keys, key 3 released in the
old live snapshot and held in the new one. -/
theorem input_edge_detection_witness :
    3 < (input_state_t.mk 512 (fun _ => false) (fun _ => false)).num_keys ∧
    3 < INPUT_MAX_KEYS ∧
    (input_key_pressed (frameStep (input_state_t.mk 512 (fun _ => false) (fun _ => false)) (fun _ => true)) 3 =
        ((fun _ : ℕ => true) 3 && !((input_state_t.mk 512 (fun _ => false) (fun _ => false)).current 3)) ∧
      input_key_released (frameStep (input_state_t.mk 512 (fun _ => false) (fun _ => false)) (fun _ => true)) 3 =
        (!((fun _ : ℕ => true) 3) && (input_state_t.mk 512 (fun _ => false) (fun _ => false)).current 3) ∧
      input_key_pressed (input_update (frameStep (input_state_t.mk 512 (fun _ => false) (fun _ => false)) (fun _ => true))) 3 = false) :=
  ⟨by decide, by decide,
    input_edge_detection (input_state_t.mk 512 (fun _ => false) (fun _ => false)) (fun _ => true) 3
      (by decide) (by decide)⟩

/-- Counterexample for C6 as stated: world_to_screen truncates toward zero, so
with the camera at the origin and a world point at x = -1/2 it returns 0, while
floor of the difference is -1. -/
theorem world_to_screen_floor_counterexample :
    world_to_screen ⟨0, 0⟩ (-(1 / 2) : ℚ) 0 ≠
      (⌊(-(1 / 2) : ℚ) - (0 : ℚ)⌋, ⌊(0 : ℚ) - (0 : ℚ)⌋) := by
  have h1 : world_to_screen ⟨0, 0⟩ (-(1 / 2) : ℚ) 0 = (0, 0) := by
    norm_num [world_to_screen, cIntCast]
  have h2 : (⌊(-(1 / 2) : ℚ) - (0 : ℚ)⌋ : ℤ) = -1 := by norm_num
  have h3 : (⌊(0 : ℚ) - (0 : ℚ)⌋ : ℤ) = 0 := by norm_num
  rw [h1, h2, h3]
  decide

/-- C6 (amended): world_to_screen returns the truncation toward zero of
`world - camera` on each axis; whenever the difference is nonnegative this
equals the floor.  The function is total and pure by construction.  At camera
(50,20) and world point (100,80) it returns (50,60). -/
theorem world_to_screen_trunc (camera : camera_t) (world_x world_y : ℚ)
    (hx : 0 ≤ world_x - camera.x) (hy : 0 ≤ world_y - camera.y) :
    world_to_screen camera world_x world_y = (⌊world_x - camera.x⌋, ⌊world_y - camera.y⌋) := by
  simp [world_to_screen, cIntCast, not_lt.mpr hx, not_lt.mpr hy]

/-- Witness for C6: the spec scenario, camera (50,20), world point (100,80),
screen result (50,60). -/
theorem world_to_screen_trunc_witness :
    0 ≤ (100 : ℚ) - (camera_t.mk 50 20).x ∧ 0 ≤ (80 : ℚ) - (camera_t.mk 50 20).y ∧
    world_to_screen ⟨50, 20⟩ 100 80 = (50, 60) := by
  refine ⟨by norm_num, by norm_num, ?_⟩
  rw [world_to_screen_trunc ⟨50, 20⟩ 100 80 (by norm_num) (by norm_num)]
  norm_num

/-- Helper: the sequential two-sided clamp of game_update is idempotent on one
axis, for every pair of bounds. -/
theorem clampAxis_idem (lo hi p : ℚ) : clampAxis lo hi (clampAxis lo hi p) = clampAxis lo hi p := by
  unfold clampAxis
  split_ifs <;> first | rfl | linarith

/-- C8: applying the camera-visible-region clamp of game_update twice in a row
with the same camera gives the same player position as applying it once. -/
theorem camera_clamp_idempotent (camera : camera_t) (p : sprite_t) :
    clampPlayerToCamera camera (clampPlayerToCamera camera p) = clampPlayerToCamera camera p := by
  simp only [clampPlayerToCamera]
  exact congrArg₂ (fun a b => { p with x := a, y := b }) (clampAxis_idem _ _ _) (clampAxis_idem _ _ _)

/-- C9: with the configured 800x600 window and 64x64 sprite, one fixed tick of
1/60 s with velocity (300, 0) advances the player's x by exactly 5 units and
leaves y unchanged, before the clamp step runs. -/
theorem player_one_tick_advance (p : sprite_t)
    (hvx : p.vel_x = SPRITE_SPEED) (hvy : p.vel_y = 0) :
    WINDOW_WIDTH = 800 ∧ WINDOW_HEIGHT = 600 ∧ SPRITE_WIDTH = 64 ∧ SPRITE_HEIGHT = 64 ∧
    FIXED_TIMESTEP = 1 / 60 ∧
    (integrateSprite FIXED_TIMESTEP p).x = p.x + 5 ∧
    (integrateSprite FIXED_TIMESTEP p).y = p.y := by
  refine ⟨rfl, rfl, rfl, rfl, by norm_num [FIXED_TIMESTEP, TARGET_FPS], ?_, ?_⟩
  · rw [integrateSprite, hvx]
    simp [SPRITE_SPEED, FIXED_TIMESTEP, TARGET_FPS]
    norm_num
  · rw [integrateSprite, hvy]
    simp

/-- Witness for C9: a concrete player sprite at the start position with
velocity (300, 0). -/
theorem player_one_tick_advance_witness :
    (sprite_t.mk 368 268 300 0 64 64 50 0 0 none true).vel_x = SPRITE_SPEED ∧
    (sprite_t.mk 368 268 300 0 64 64 50 0 0 none true).vel_y = 0 ∧
    (integrateSprite FIXED_TIMESTEP (sprite_t.mk 368 268 300 0 64 64 50 0 0 none true)).x =
      (sprite_t.mk 368 268 300 0 64 64 50 0 0 none true).x + 5 :=
  ⟨rfl, rfl,
    (player_one_tick_advance (sprite_t.mk 368 268 300 0 64 64 50 0 0 none true) rfl rfl).2.2.2.2.2.1⟩

/-- Helper: for a path shorter than TEXTURE_PATH_MAX_LEN, a successful load
followed by a reload of the same path returns the same handle, leaves the
cache untouched and never reaches the decoder. -/
theorem texture_load_twice_of_short (decode : path_t → Option (ℕ × ℤ × ℤ))
    (tm : texture_manager_t) (path : path_t) (h : ℕ)
    (hlen : path.length < TEXTURE_PATH_MAX_LEN)
    (hs : (texture_load decode tm path).handle = some h) :
    texture_load decode (texture_load decode tm path).state path =
      ⟨some h, (texture_load decode tm path).state, false⟩ := by
  have htake : path.take (TEXTURE_PATH_MAX_LEN - 1) = path := by
    apply List.take_of_length_le
    simp only [TEXTURE_PATH_MAX_LEN] at hlen ⊢
    omega
  cases hfind : tm.entries.find? (fun e => e.path == path) with
  | some e =>
    have he : (texture_load decode tm path) = ⟨some e.texture, tm, false⟩ := by
      simp [texture_load, hfind]
    rw [he] at hs ⊢
    simp only [load_result_t.handle] at hs
    simp [texture_load, hfind, hs]
  | none =>
    by_cases hcap : TEXTURE_MAX_ENTRIES ≤ tm.entries.length
    · have he : (texture_load decode tm path) = ⟨none, tm, false⟩ := by
        simp [texture_load, hfind, hcap]
      rw [he] at hs
      simp at hs
    · cases hdec : decode path with
      | none =>
        have he : (texture_load decode tm path) = ⟨none, tm, true⟩ := by
          simp [texture_load, hfind, hcap, hdec]
        rw [he] at hs
        simp at hs
      | some t =>
        obtain ⟨h1, w, ht⟩ := t
        have he : (texture_load decode tm path) =
            ⟨some h1, ⟨tm.entries ++ [⟨path.take (TEXTURE_PATH_MAX_LEN - 1), h1, w, ht⟩]⟩, true⟩ := by
          simp [texture_load, hfind, hcap, hdec]
        rw [he] at hs ⊢
        simp only [load_result_t.handle, Option.some.injEq] at hs
        subst hs
        simp [texture_load, List.find?_append, hfind, htake]

/-- C3 (amended): for every cache state and every path shorter than
TEXTURE_PATH_MAX_LEN characters, if load(path) succeeds then a second
load(path) returns the identical handle, does not invoke the image decoder,
and leaves the cache state (count and all entries) unchanged. -/
theorem texture_load_idempotent (decode : path_t → Option (ℕ × ℤ × ℤ))
    (tm : texture_manager_t) (path : path_t) (h : ℕ)
    (hlen : path.length < TEXTURE_PATH_MAX_LEN)
    (hs : (texture_load decode tm path).handle = some h) :
    texture_load decode (texture_load decode tm path).state path =
      ⟨some h, (texture_load decode tm path).state, false⟩ :=
  texture_load_twice_of_short decode tm path h hlen hs

/-- Counterexample for C3 as stated: with a 128-character path, an empty cache
and a decoder that always succeeds with handle 1, the first load succeeds but
the second load is not the quiet cache hit the claim requires (it re-invokes
the decoder and adds a second entry, because the stored key was truncated). -/
theorem texture_load_idempotent_counterexample :
    ¬ ((texture_load (fun _ => some (1, 4, 4)) ⟨[]⟩ (List.replicate 128 'a')).handle = some 1 →
        texture_load (fun _ => some (1, 4, 4))
            (texture_load (fun _ => some (1, 4, 4)) ⟨[]⟩ (List.replicate 128 'a')).state
            (List.replicate 128 'a') =
          ⟨some 1,
            (texture_load (fun _ => some (1, 4, 4)) ⟨[]⟩ (List.replicate 128 'a')).state,
            false⟩) := by
  decide

/-- Witness for C3: a one-character path, an empty cache, a decoder returning
handle 7. -/
theorem texture_load_idempotent_witness :
    (['x'] : path_t).length < TEXTURE_PATH_MAX_LEN ∧
    (texture_load (fun _ => some (7, 4, 4)) ⟨[]⟩ ['x']).handle = some 7 ∧
    texture_load (fun _ => some (7, 4, 4))
        (texture_load (fun _ => some (7, 4, 4)) ⟨[]⟩ ['x']).state ['x'] =
      ⟨some 7, (texture_load (fun _ => some (7, 4, 4)) ⟨[]⟩ ['x']).state, false⟩ :=
  ⟨by decide, by decide,
    texture_load_idempotent (fun _ => some (7, 4, 4)) ⟨[]⟩ ['x'] 7 (by decide) (by decide)⟩

/-- C4: when the cache holds TEXTURE_MAX_ENTRIES entries and the path matches
none of them, texture_load returns NULL, never calls the decoder and leaves
the cache state unchanged. -/
theorem texture_load_cache_full (decode : path_t → Option (ℕ × ℤ × ℤ))
    (tm : texture_manager_t) (path : path_t)
    (hfull : tm.entries.length = TEXTURE_MAX_ENTRIES)
    (habs : ∀ e ∈ tm.entries, e.path ≠ path) :
    texture_load decode tm path = ⟨none, tm, false⟩ := by
  have hfind : tm.entries.find? (fun e => e.path == path) = none := by
    rw [List.find?_eq_none]
    intro e he
    simpa using habs e he
  simp [texture_load, hfind, hfull]

/-- Witness for C4: a cache filled with 32 distinct one-character paths and a
lookup of a path not among them. -/
theorem texture_load_cache_full_witness :
    (texture_manager_t.mk ((List.range 32).map (fun i => ⟨[Char.ofNat (65 + i)], i, 1, 1⟩))).entries.length = TEXTURE_MAX_ENTRIES ∧
    (∀ e ∈ (texture_manager_t.mk ((List.range 32).map (fun i => ⟨[Char.ofNat (65 + i)], i, 1, 1⟩))).entries,
        e.path ≠ (['z'] : path_t)) ∧
    texture_load (fun _ => some (5, 8, 8))
        (texture_manager_t.mk ((List.range 32).map (fun i => ⟨[Char.ofNat (65 + i)], i, 1, 1⟩))) ['z'] =
      ⟨none, texture_manager_t.mk ((List.range 32).map (fun i => ⟨[Char.ofNat (65 + i)], i, 1, 1⟩)), false⟩ :=
  ⟨by decide, by decide,
    texture_load_cache_full (fun _ => some (5, 8, 8))
      (texture_manager_t.mk ((List.range 32).map (fun i => ⟨[Char.ofNat (65 + i)], i, 1, 1⟩)))
      ['z'] (by decide) (by decide)⟩

set_option maxRecDepth 4000 in
/-- C10: every entry texture_load adds carries the truncated key
`path.take (TEXTURE_PATH_MAX_LEN - 1)`; for paths shorter than
TEXTURE_PATH_MAX_LEN the reload-hits-the-cache property holds, while for a
path of length TEXTURE_PATH_MAX_LEN a repeated load misses the truncated
stored key, re-invokes the decoder and inserts a second entry. -/
theorem texture_path_truncation :
    (∀ (decode : path_t → Option (ℕ × ℤ × ℤ)) (tm : texture_manager_t) (path : path_t),
        ∀ e ∈ (texture_load decode tm path).state.entries,
          e ∈ tm.entries ∨ e.path = path.take (TEXTURE_PATH_MAX_LEN - 1)) ∧
    (∀ (decode : path_t → Option (ℕ × ℤ × ℤ)) (tm : texture_manager_t) (path : path_t) (h : ℕ),
        path.length < TEXTURE_PATH_MAX_LEN →
        (texture_load decode tm path).handle = some h →
        texture_load decode (texture_load decode tm path).state path =
          ⟨some h, (texture_load decode tm path).state, false⟩) ∧
    (∃ p : path_t, TEXTURE_PATH_MAX_LEN ≤ p.length ∧
        (texture_load (fun _ => some (2, 4, 4)) ⟨[]⟩ p).handle = some 2 ∧
        (texture_load (fun _ => some (2, 4, 4))
            (texture_load (fun _ => some (2, 4, 4)) ⟨[]⟩ p).state p).decoder_invoked = true ∧
        (texture_load (fun _ => some (2, 4, 4))
            (texture_load (fun _ => some (2, 4, 4)) ⟨[]⟩ p).state p).state.entries.length = 2) := by
  refine ⟨?_, fun d tm p h hlen hs => texture_load_twice_of_short d tm p h hlen hs, ?_⟩
  · intro decode tm path e he
    cases hfind : tm.entries.find? (fun e => e.path == path) with
    | some e1 =>
      simp only [texture_load, hfind] at he
      exact Or.inl he
    | none =>
      by_cases hcap : TEXTURE_MAX_ENTRIES ≤ tm.entries.length
      · simp only [texture_load, hfind, if_pos hcap] at he
        exact Or.inl he
      · cases hdec : decode path with
        | none =>
          simp only [texture_load, hfind, if_neg hcap, hdec] at he
          exact Or.inl he
        | some t =>
          obtain ⟨h1, w, ht⟩ := t
          simp only [texture_load, hfind, if_neg hcap, hdec, List.mem_append,
            List.mem_singleton] at he
          rcases he with hold | hnew
          · exact Or.inl hold
          · exact Or.inr (by rw [hnew])
  · exact ⟨List.replicate 128 'b', by decide, by decide, by decide, by decide⟩

/-- Witness for C10 at a concrete short path: an empty cache, path "y",
decoder handle 9. -/
theorem texture_path_truncation_witness :
    (['y'] : path_t).length < TEXTURE_PATH_MAX_LEN ∧
    (texture_load (fun _ => some (9, 2, 2)) ⟨[]⟩ ['y']).handle = some 9 ∧
    texture_load (fun _ => some (9, 2, 2))
        (texture_load (fun _ => some (9, 2, 2)) ⟨[]⟩ ['y']).state ['y'] =
      ⟨some 9, (texture_load (fun _ => some (9, 2, 2)) ⟨[]⟩ ['y']).state, false⟩ :=
  ⟨by decide, by decide,
    texture_path_truncation.2.1 (fun _ => some (9, 2, 2)) ⟨[]⟩ ['y'] 9 (by decide) (by decide)⟩

/-- C7: starting from a state with the stress test inactive and the sprite
array within capacity, toggling on spawns exactly
`min STRESS_TEST_SPRITE_COUNT (SPRITE_MAX_COUNT - sprite_count)` sprites (so
the count never exceeds SPRITE_MAX_COUNT and spawning stops silently at
capacity), and toggling off destroys precisely the texture handles of the
batch-spawned sprites (the slots from base_index up to the post-spawn count),
restores the sprite array to its pre-toggle contents and clears the flag. -/
theorem stress_toggle_round_trip (rand1 rand2 : ℕ → ℕ) (create1 create2 : ℕ → Option ℕ)
    (game : game_state_t)
    (hoff : game.stress_test_active = false)
    (hcap : game.sprites.length ≤ SPRITE_MAX_COUNT) :
    (debug_stress_test_toggle rand1 create1 game).1.sprites.length =
      game.sprites.length + min STRESS_TEST_SPRITE_COUNT (SPRITE_MAX_COUNT - game.sprites.length) ∧
    (debug_stress_test_toggle rand1 create1 game).1.sprites.length ≤ SPRITE_MAX_COUNT ∧
    (debug_stress_test_toggle rand1 create1 game).1.stress_test_active = true ∧
    (debug_stress_test_toggle rand2 create2 (debug_stress_test_toggle rand1 create1 game).1).1.sprites =
      game.sprites ∧
    (debug_stress_test_toggle rand2 create2 (debug_stress_test_toggle rand1 create1 game).1).1.sprites.length =
      game.sprites.length ∧
    (debug_stress_test_toggle rand2 create2 (debug_stress_test_toggle rand1 create1 game).1).1.stress_test_active =
      false ∧
    (debug_stress_test_toggle rand2 create2 (debug_stress_test_toggle rand1 create1 game).1).2 =
      ((debug_stress_test_toggle rand1 create1 game).1.sprites.drop game.sprites.length).filterMap
        (fun s => s.texture) := by
  have hone : debug_stress_test_toggle rand1 create1 game =
      ({ game with
          sprites := game.sprites ++
            (List.range (min STRESS_TEST_SPRITE_COUNT (SPRITE_MAX_COUNT - game.sprites.length))).map
              (fun i => stressSprite rand1 create1 (9 * i) i),
          stress_test_active := true,
          stress_test_base_index := game.sprites.length }, []) := by
    simp [debug_stress_test_toggle, hoff]
  have htake :
      (game.sprites ++
        (List.range (min STRESS_TEST_SPRITE_COUNT (SPRITE_MAX_COUNT - game.sprites.length))).map
          (fun i => stressSprite rand1 create1 (9 * i) i)).take game.sprites.length = game.sprites :=
    List.take_left game.sprites _
  rw [hone]
  simp only [debug_stress_test_toggle, List.length_append, List.length_map, List.length_range]
  simp [htake]
  omega

/-- Witness for C7: the empty initial sprite store with both oracles concrete. -/
theorem stress_toggle_round_trip_witness :
    (game_state_t.mk ⟨512, fun _ => false, fun _ => false⟩ ⟨0, 0⟩ [] 0 true false false 0).stress_test_active = false ∧
    (game_state_t.mk ⟨512, fun _ => false, fun _ => false⟩ ⟨0, 0⟩ [] 0 true false false 0).sprites.length ≤ SPRITE_MAX_COUNT ∧
    (debug_stress_test_toggle (fun n => n + 1) (fun n => some (n + 100))
        (debug_stress_test_toggle (fun n => n) (fun n => some n)
          (game_state_t.mk ⟨512, fun _ => false, fun _ => false⟩ ⟨0, 0⟩ [] 0 true false false 0)).1).1.sprites =
      (game_state_t.mk ⟨512, fun _ => false, fun _ => false⟩ ⟨0, 0⟩ [] 0 true false false 0).sprites :=
  ⟨rfl, by decide,
    (stress_toggle_round_trip (fun n => n) (fun n => n + 1) (fun n => some n) (fun n => some (n + 100))
      (game_state_t.mk ⟨512, fun _ => false, fun _ => false⟩ ⟨0, 0⟩ [] 0 true false false 0)
      rfl (by decide)).2.2.2.1⟩

/-- Helper: every delta the drain loop of engine_run hands to game_update is
exactly FIXED_TIMESTEP. -/
theorem drainSteps_mem (a : ℚ) : ∀ t ∈ drainSteps a, t = FIXED_TIMESTEP := by
  induction a using drainSteps.induct with
  | case1 a h ih =>
    rw [drainSteps, dif_pos h]
    intro t ht
    rcases List.mem_cons.mp ht with h1 | h2
    · exact h1
    · exact ih t h2
  | case2 a h =>
    rw [drainSteps, dif_neg h]
    intro t ht
    exact absurd ht (List.not_mem_nil t)

/-- C5: the measured delta is clamped to MAX_DELTA_TIME before being added to
the accumulator and the accumulator is clamped to MAX_ACCUMULATOR before
draining, so a frame whose delta exceeds the clamp produces exactly the same
accumulator value and the same sequence of fixed-step update calls — each with
exactly FIXED_TIMESTEP — as a frame whose delta equals MAX_DELTA_TIME. -/
theorem frame_delta_clamp_equiv (accumulator delta_time : ℚ)
    (h : MAX_DELTA_TIME < delta_time) :
    accumulate accumulator delta_time = accumulate accumulator MAX_DELTA_TIME ∧
    frameUpdateSteps accumulator delta_time = frameUpdateSteps accumulator MAX_DELTA_TIME ∧
    ∀ t ∈ frameUpdateSteps accumulator delta_time, t = FIXED_TIMESTEP := by
  have hc : clampDelta delta_time = clampDelta MAX_DELTA_TIME := by
    simp [clampDelta, h]
  have ha : accumulate accumulator delta_time = accumulate accumulator MAX_DELTA_TIME := by
    simp only [accumulate, hc]
  exact ⟨ha, by simp only [frameUpdateSteps, ha],
    fun t ht => drainSteps_mem _ t ht⟩

/-- Witness for C5: an empty accumulator and a one-second stall frame. -/
theorem frame_delta_clamp_equiv_witness :
    MAX_DELTA_TIME < (1 : ℚ) ∧
    (accumulate 0 1 = accumulate 0 MAX_DELTA_TIME ∧
     frameUpdateSteps 0 1 = frameUpdateSteps 0 MAX_DELTA_TIME ∧
     ∀ t ∈ frameUpdateSteps 0 1, t = FIXED_TIMESTEP) :=
  ⟨by norm_num [MAX_DELTA_TIME], frame_delta_clamp_equiv 0 1 (by norm_num [MAX_DELTA_TIME])⟩

/-- Helper: scanning the z buckets 0..m-1 over the index list `l` visits, up to
order, exactly the indices whose z value lies in [0, m). -/
theorem bucket_flatMap_perm (v : ℕ → ℤ) (l : List ℕ) (m : ℕ) :
    List.Perm ((List.range m).flatMap (fun z => l.filter (fun i => v i == (z : ℤ))))
      (l.filter (fun i => decide (0 ≤ v i ∧ v i < (m : ℤ)))) := by
  induction m with
  | zero =>
    simp only [List.range_zero, List.flatMap_nil]
    have hnone : ∀ i ∈ l, ¬ ((fun i => decide (0 ≤ v i ∧ v i < ((0 : ℕ) : ℤ))) i = true) := by
      intro i _
      simp only [Nat.cast_zero, decide_eq_true_eq]
      omega
    rw [List.filter_eq_nil_iff.mpr hnone]
  | succ m ih =>
    rw [List.range_succ, List.flatMap_append, List.flatMap_cons, List.flatMap_nil,
      List.append_nil]
    have hsplit := List.filter_append_perm (fun i => decide (v i < (m : ℤ)))
      (l.filter (fun i => decide (0 ≤ v i ∧ v i < ((m + 1 : ℕ) : ℤ))))
    rw [List.filter_filter, List.filter_filter] at hsplit
    have e1 : ∀ i ∈ l,
        (decide (v i < (m : ℤ)) && decide (0 ≤ v i ∧ v i < ((m + 1 : ℕ) : ℤ))) =
          decide (0 ≤ v i ∧ v i < (m : ℤ)) := by
      intro i _
      rw [Bool.eq_iff_iff]
      simp only [Bool.and_eq_true, decide_eq_true_eq]
      push_cast
      omega
    have e2 : ∀ i ∈ l,
        ((!decide (v i < (m : ℤ))) && decide (0 ≤ v i ∧ v i < ((m + 1 : ℕ) : ℤ))) =
          (v i == (m : ℤ)) := by
      intro i _
      rw [Bool.eq_iff_iff]
      simp only [Bool.and_eq_true, Bool.not_eq_true', decide_eq_false_iff_not,
        decide_eq_true_eq, beq_iff_eq]
      push_cast
      omega
    rw [List.filter_congr e1, List.filter_congr e2] at hsplit
    exact (ih.append (List.Perm.refl _)).trans hsplit

/-- Helper: the bucketed render pass visits sprite slots in strictly increasing
(z_index, index) lexicographic order. -/
theorem renderDrawOrder_pairwise (zs : List ℤ) :
    List.Pairwise (fun i j => zs.getD i 0 < zs.getD j 0 ∨ (zs.getD i 0 = zs.getD j 0 ∧ i < j))
      (renderDrawOrder zs) := by
  unfold renderDrawOrder
  rw [List.pairwise_flatMap]
  constructor
  · intro z _
    have h0 : List.Pairwise (fun i j : ℕ => i < j)
        ((List.range zs.length).filter (fun i => zs.getD i 0 == (z : ℤ))) :=
      (List.pairwise_lt_range zs.length).filter _
    refine h0.imp_of_mem ?_
    intro a b ha hb hab
    have hva : zs.getD a 0 = (z : ℤ) := eq_of_beq (List.mem_filter.mp ha).2
    have hvb : zs.getD b 0 = (z : ℤ) := eq_of_beq (List.mem_filter.mp hb).2
    exact Or.inr ⟨hva.trans hvb.symm, hab⟩
  · refine (List.pairwise_lt_range 101).imp ?_
    intro z₁ z₂ hz x hx y hy
    have hvx : zs.getD x 0 = (z₁ : ℤ) := eq_of_beq (List.mem_filter.mp hx).2
    have hvy : zs.getD y 0 = (z₂ : ℤ) := eq_of_beq (List.mem_filter.mp hy).2
    left
    rw [hvx, hvy]
    exact_mod_cast hz

/-- Helper: the (z_index, original index) comparison is total. -/
theorem spriteKeyLe_total (zs : List ℤ) (i j : ℕ) : spriteKeyLe zs i j ∨ spriteKeyLe zs j i := by
  unfold spriteKeyLe
  omega

/-- Helper: the (z_index, original index) comparison is transitive. -/
theorem spriteKeyLe_trans (zs : List ℤ) (i j k : ℕ) :
    spriteKeyLe zs i j → spriteKeyLe zs j k → spriteKeyLe zs i k := by
  unfold spriteKeyLe
  omega

/-- Helper: the (z_index, original index) comparison is antisymmetric. -/
theorem spriteKeyLe_antisymm (zs : List ℤ) (i j : ℕ) :
    spriteKeyLe zs i j → spriteKeyLe zs j i → i = j := by
  unfold spriteKeyLe
  omega

/-- C1: when every sprite's z_index lies in [0,100], the bucketed render pass
of engine_render visits sprite slots in non-decreasing z_index order, visiting
the lower array index first among equal z_index values, and its draw sequence
is exactly the one obtained by sorting the sprite indices by the pair
(z_index, original_index). -/
theorem engine_render_draw_order (zs : List ℤ)
    (hz : ∀ z ∈ zs, 0 ≤ z ∧ z ≤ 100) :
    List.Pairwise (fun i j => zs.getD i 0 ≤ zs.getD j 0 ∧ (zs.getD i 0 = zs.getD j 0 → i < j))
      (renderDrawOrder zs) ∧
    renderDrawOrder zs = sortedDrawOrder zs := by
  have hpw := renderDrawOrder_pairwise zs
  constructor
  · refine hpw.imp ?_
    rintro a b (hlt | ⟨he, hij⟩)
    · exact ⟨le_of_lt hlt, fun hcon => absurd (hcon ▸ hlt) (lt_irrefl _)⟩
    · exact ⟨le_of_eq he, fun _ => hij⟩
  · haveI : IsAntisymm ℕ (spriteKeyLe zs) := ⟨spriteKeyLe_antisymm zs⟩
    haveI : IsTotal ℕ (spriteKeyLe zs) := ⟨spriteKeyLe_total zs⟩
    haveI : IsTrans ℕ (spriteKeyLe zs) := ⟨spriteKeyLe_trans zs⟩
    have heq : (List.range zs.length).filter
        (fun i => decide (0 ≤ zs.getD i 0 ∧ zs.getD i 0 < ((101 : ℕ) : ℤ))) =
        List.range zs.length := by
      rw [List.filter_eq_self]
      intro i hi
      have hi' : i < zs.length := List.mem_range.mp hi
      have hmem : zs.getD i 0 ∈ zs := by
        rw [List.getD_eq_getElem zs 0 hi']
        exact List.getElem_mem hi'
      have hb := hz _ hmem
      simp only [decide_eq_true_eq]
      push_cast
      omega
    have hperm1 : List.Perm (renderDrawOrder zs) (List.range zs.length) := by
      have hb : List.Perm (renderDrawOrder zs)
          ((List.range zs.length).filter
            (fun i => decide (0 ≤ zs.getD i 0 ∧ zs.getD i 0 < ((101 : ℕ) : ℤ)))) :=
        bucket_flatMap_perm (fun i => zs.getD i 0) (List.range zs.length) 101
      rw [heq] at hb
      exact hb
    have hperm2 : List.Perm (sortedDrawOrder zs) (List.range zs.length) :=
      List.perm_insertionSort _ _
    have hs1 : List.Sorted (spriteKeyLe zs) (renderDrawOrder zs) := by
      refine hpw.imp ?_
      rintro a b (hlt | ⟨he, hij⟩)
      · exact Or.inl hlt
      · exact Or.inr ⟨he, le_of_lt hij⟩
    have hs2 : List.Sorted (spriteKeyLe zs) (sortedDrawOrder zs) :=
      List.sorted_insertionSort _ _
    exact List.eq_of_perm_of_sorted (hperm1.trans hperm2.symm) hs1 hs2

/-- Witness for C1: a four-sprite store with z values 5, 3, 5, 0. -/
theorem engine_render_draw_order_witness :
    (∀ z ∈ ([5, 3, 5, 0] : List ℤ), 0 ≤ z ∧ z ≤ 100) ∧
    (List.Pairwise
        (fun i j => ([5, 3, 5, 0] : List ℤ).getD i 0 ≤ ([5, 3, 5, 0] : List ℤ).getD j 0 ∧
          (([5, 3, 5, 0] : List ℤ).getD i 0 = ([5, 3, 5, 0] : List ℤ).getD j 0 → i < j))
        (renderDrawOrder [5, 3, 5, 0]) ∧
      renderDrawOrder [5, 3, 5, 0] = sortedDrawOrder [5, 3, 5, 0]) :=
  ⟨by decide, engine_render_draw_order [5, 3, 5, 0] (by decide)⟩
